import Mathlib

/-!
Verification of the `generate-file-structure` endpoint of `src/server/trial.py`
(repository meghana-41/Project3) against its natural-language specification.

The endpoint is embedded shallowly:
* external collaborators (the upload stream, the filesystem, the PyMuPDF and
  python-docx extractors, and the OpenAI chat-completion client) are an
  `Oracle` of `Except`-valued functions, so any of them may raise;
* the side effects the handler performs are recorded in an explicit
  `Effect` log, in the order the source performs them;
* Python's `str.lower`, `str.upper`, `str.endswith` and truthiness tests on
  optional strings are modelled character-by-character so that every
  definition evaluates by kernel reduction.
-/

namespace Trial

/-- Python `str.lower()` (ASCII case mapping, applied per character). -/
def py_lower (s : String) : String := String.mk (s.data.map Char.toLower)

/-- Python `str.upper()` (ASCII case mapping, applied per character). -/
def py_upper (s : String) : String := String.mk (s.data.map Char.toUpper)

/-- Python `str.endswith(suffix)`: a case-sensitive suffix test. -/
def py_endswith (s suffix : String) : Bool := List.isSuffixOf suffix.data s.data

/-- Python truthiness of an optional string as used by `if not prd_text:`:
`None` and the empty string are falsy, everything else is truthy. -/
def py_falsy : Option String → Bool
  | none => true
  | some t => t = ""

/-- Substring search helper: does the character list contain `needle`
as a contiguous run? -/
def sub_search (needle : List Char) : List Char → Bool
  | [] => needle.isEmpty
  | c :: rest => List.isPrefixOf needle (c :: rest) || sub_search needle rest

/-- Python `needle in hay` on strings (contiguous substring test). -/
def contains_sub (hay needle : String) : Bool := sub_search needle.data hay.data

/-- One observable side effect of the handler, in the order the source
performs them.  `tempDelete` is included so that the absence of any deletion
is expressible; the source never performs it. -/
inductive Effect where
  | tempOpen (path : String)
  | fileRead
  | tempWrite (path : String)
  | docxExtract (path : String)
  | pdfExtract (path : String)
  | tempDelete (path : String)
  | modelCall
deriving DecidableEq, Repr

/-- The JSON-shaped body the endpoint returns: either a `file_structure`
field or an `error` field (trial.py returns exactly one of the two). -/
inductive Response where
  | fileStructure (s : String)
  | error (s : String)
deriving DecidableEq, Repr

/-- What the caller observes: a structured response, or an exception that
escaped the handler.  `crash` is representable so that "never crashes" is a
theorem rather than a typing accident. -/
inductive Outcome where
  | responded (r : Response)
  | crash (e : String)
deriving DecidableEq, Repr

/-- The uploaded file as the handler sees it: FastAPI's `UploadFile` exposes
the client-supplied `filename`; the byte stream itself is read through the
oracle (`await file.read()`). -/
structure UploadedFile where
  filename : String
deriving DecidableEq, Repr

/-- The request form fields of the endpooint: optional `file`, optional
`prd_text`, required `tech_stack`. -/
structure Request where
  file : Option UploadedFile
  prd_text : Option String
  tech_stack : String
deriving DecidableEq, Repr

/-- External collaborators, each of which may raise (modelled as
`Except.error` with the exception's string rendering):
`read_upload` is `await file.read()`, `write_temp` is the
`open(file_path, "wb") ... buffer.write(...)` block, the two extractors are
the module-level helpers backed by python-docx and PyMuPDF, and
`chat_completion` is `client.chat.completions.create(...)` together with the
`response.choices[0].message.content` projection, as a function of the user
prompt. -/
structure Oracle where
  read_upload : Except String String
  write_temp : String → String → Except String Unit
  extract_text_from_docx : String → Except String String
  extract_text_from_pdf : String → Except String String
  chat_completion : String → Except String String

/-- The fixed Django+React baseline template string (trial.py lines 57-98),
verbatim. -/
def django_react_structure : String := "
        /project-root
        ├── /client  (Frontend - React)
        │   ├── /public
        │   │   ├── /images        # Static images
        │   ├── /src
        │   │   ├── /components
        │   │   ├── /pages
        │   │   ├── /redux         # Redux store & slices for state management
        │   │   ├── /context       # Context API for lightweight state management
        │   │   ├── /router        # React Router for navigation
        │   │   ├── index.js
        │   │   ├── App.js
        │   ├── /tests             # Unit & integration tests
        │   │   ├── unit
        │   │   ├── integration
        │   ├── package.json
        │   ├── .env
        │   ├── README.md
        ├── /server  (Backend - Django)
        │   ├── /app
        │   │   ├── /models
        │   │   ├── /views
        │   │   ├── /serializers
        │   │   ├── /urls
        │   │   ├── /tests          # Django unit tests
        │   │   │   ├── test_auth.py
        │   │   ├── /permissions
        │   │   ├── settings.py
        │   │   ├── urls.py
        │   │   ├── wsgi.py
        │   ├── /docs                # API documentation
        │   │   ├── API_REFERENCE.md
        │   ├── manage.py
        │   ├── requirements.txt
        │   ├── .env
        │   ├── README.md
        ├── /deployment
        │   ├── Dockerfile
        │   ├── docker-compose.yml
        │   ├── nginx.conf
        "

/-- The fixed Node.js+React baseline template string (trial.py lines
100-135), verbatim. -/
def node_react_structure : String := "
        /project-root
        ├── /client  (Frontend - React)
        │   ├── /public
        │   │   ├── /images        # Static images
        │   ├── /src
        │   │   ├── /components
        │   │   ├── /pages
        │   │   ├── /redux         # Redux store & slices for state management
        │   │   ├── /context       # Context API for lightweight state management
        │   │   ├── /router        # React Router for navigation
        │   │   ├── index.js
        │   │   ├── App.js
        │   ├── package.json
        │   ├── .env
        │   ├── README.md
        ├── /server  (Backend - Node.js/Express)
        │   ├── /src
        │   │   ├── /models
        │   │   ├── /routes
        │   │   ├── /controllers
        │   │   ├── /middleware
        │   │   ├── /config
        │   │   ├── /tests          # Mocha/Chai unit tests
        │   │   │   ├── test_auth.js
        │   ├── /docs               # API documentation
        │   │   ├── API_REFERENCE.md
        │   ├── server.js
        │   ├── package.json
        │   ├── .env
        │   ├── README.md
        ├── /deployment
        │   ├── Dockerfile
        │   ├── docker-compose.yml
        │   ├── nginx.conf
        "

/-- The baseline chosen on trial.py line 137:
`django_react_structure if tech_stack.lower() == "django-react" else
node_react_structure`. -/
def base_structure (tech_stack : String) : String :=
  if py_lower tech_stack = "django-react" then django_react_structure
  else node_react_structure

/-- The user prompt assembled on trial.py lines 140-160 (the f-string,
with its interpolations made explicit). -/
def build_prompt (tech_stack bs prd_text : String) : String :=
  "
        You are an expert software architect. Generate a **detailed and structured project directory** based on the provided PRD.

        **Instructions:**
        - Use a **tree format** for the directory.
        - Ensure **best practices** for scalability and maintainability.
        - Include necessary folders such as **tests, documentation, configurations, and state management**.
        - Generate missing files dynamically based on PRD content.

        **Base Structure for " ++ py_upper tech_stack ++ ":**
        ```
        " ++ bs ++ "
        ```

        **PRD Document for Context:**
        ```
        " ++ prd_text ++ "
        ```

        Generate the complete directory structure, ensuring that **all PRD features are covered**.
        "

/-- The tail of the `try:` block once `prd_text` is resolved (trial.py lines
50-174): the emptiness check, the tech-stack check, baseline selection,
prompt assembly, the model call, and the success return.  The accumulated
effect log is threaded through; an `Except.error` result is an exception
propagating towards the handler's `except` clause. -/
def pipeline_after_text (ora : Oracle) (tech_stack : String)
    (prd_text : Option String) (log : List Effect) :
    Except String Response × List Effect :=
  if py_falsy prd_text then
    (Except.ok (Response.error "No PRD text provided."), log)
  else if (["django-react", "nodejs-react"].contains (py_lower tech_stack)) = false then
    (Except.ok (Response.error "Invalid tech stack. Choose 'django-react' or 'nodejs-react'."), log)
  else
    let prompt := build_prompt tech_stack (base_structure tech_stack) (prd_text.getD "")
    match ora.chat_completion prompt with
    | Except.error e => (Except.error e, log ++ [Effect.modelCall])
    | Except.ok generated_structure =>
        (Except.ok (Response.fileStructure generated_structure), log ++ [Effect.modelCall])

/-- The whole `try:` block of `generate_file_structure` (trial.py lines
36-174).  With an uploaded file the handler opens `temp_<filename>`, reads
the upload, writes it, then branches on the (case-sensitive) filename
suffix; `.docx`/`.pdf` files are extracted and replace `prd_text`, anything
else returns the unsupported-format error.  `Except.error` marks an
exception that would propagate out of the `try:` block. -/
def try_body (ora : Oracle) (req : Request) : Except String Response × List Effect :=
  match req.file with
  | none => pipeline_after_text ora req.tech_stack req.prd_text []
  | some file =>
    let file_path := "temp_" ++ file.filename
    match ora.read_upload with
    | Except.error e => (Except.error e, [Effect.tempOpen file_path, Effect.fileRead])
    | Except.ok data =>
      match ora.write_temp file_path data with
      | Except.error e => (Except.error e, [Effect.tempOpen file_path, Effect.fileRead])
      | Except.ok _ =>
        let log := [Effect.tempOpen file_path, Effect.fileRead, Effect.tempWrite file_path]
        if py_endswith file.filename ".docx" then
          match ora.extract_text_from_docx file_path with
          | Except.error e => (Except.error e, log ++ [Effect.docxExtract file_path])
          | Except.ok text =>
              pipeline_after_text ora req.tech_stack (some text) (log ++ [Effect.docxExtract file_path])
        else if py_endswith file.filename ".pdf" then
          match ora.extract_text_from_pdf file_path with
          | Except.error e => (Except.error e, log ++ [Effect.pdfExtract file_path])
          | Except.ok text =>
              pipeline_after_text ora req.tech_stack (some text) (log ++ [Effect.pdfExtract file_path])
        else
          (Except.ok (Response.error "Unsupported file format. Use DOCX or PDF."), log)

/-- The endpoint itself: the `try:` body wrapped by
`except Exception as e: return {"error": str(e)}` (trial.py lines 176-177).
Every exception the body raises is converted into an error response; nothing
is re-raised, so `Outcome.crash` is never produced. -/
def generate_file_structure (ora : Oracle) (req : Request) : Outcome × List Effect :=
  match try_body ora req with
  | (Except.ok r, log) => (Outcome.responded r, log)
  | (Except.error e, log) => (Outcome.responded (Response.error e), log)

/-- Temp-file accounting over an effect log: the paths opened for writing
minus the paths later deleted — what is still on disk after the request. -/
def temp_files_remaining (log : List Effect) : List String :=
  let created := log.filterMap fun e =>
    match e with | Effect.tempOpen p => some p | _ => none
  let deleted := log.filterMap fun e =>
    match e with | Effect.tempDelete p => some p | _ => none
  created.filter fun p => !(deleted.contains p)

/-- Drop characters up to (and keeping) the first opening delimiter. -/
def scan_to_open : List Char → Option (List Char)
  | [] => none
  | c :: rest => if c = '\x7b' then some (c :: rest) else scan_to_open rest

/-- Depth-balanced scan: starting at an opening delimiter, accumulate
characters, incrementing depth on opens and decrementing on closes, and stop
at the close that returns depth to zero. -/
def take_balanced : List Char → Nat → List Char → Option (List Char)
  | [], _, _ => none
  | c :: rest, depth, acc =>
    if c = '\x7b' then take_balanced rest (depth + 1) (acc ++ [c])
    else if c = '\x7d' then
      if depth = 1 then some (acc ++ [c])
      else take_balanced rest (depth - 1) (acc ++ [c])
    else take_balanced rest depth (acc ++ [c])

/-- ASCII whitespace, for the spec's empty-or-whitespace-only rejection. -/
def ws_char (c : Char) : Bool := c = ' ' || c = '\n' || c = '\t' || c = '\r'

/-- Modelled from the spec: the Response Normalizer of spec section 4.4,
which does not exist in `src/server/trial.py`.  "Scan for the first
top-level opening delimiter and its matching closing delimiter using
depth-balanced scanning (increment depth on nested opens, decrement on
closes, select the substring from the first open to the close that returns
depth to zero)"; "Reject empty or whitespace-only spans as
`NoStructureFound`" (`none` here). -/
def spec_extract_first_balanced (reply : String) : Option String :=
  match scan_to_open reply.data with
  | none => none
  | some fromOpen =>
    match take_balanced fromOpen 0 [] with
    | none => none
    | some span =>
        if span.all ws_char then none else some (String.mk span)

/-- A benign collaborator environment: the upload stream, filesystem, both
extractors and the model call all succeed; the model replies `reply`. -/
def ora_ok (reply : String) : Oracle where
  read_upload := Except.ok "PRD bytes"
  write_temp := fun _ _ => Except.ok ()
  extract_text_from_docx := fun _ => Except.ok "Build a todo app with user auth"
  extract_text_from_pdf := fun _ => Except.ok "Build a todo app with user auth"
  chat_completion := fun _ => Except.ok reply

/-- A collaborator environment in which `await file.read()` raises. -/
def ora_read_fails : Oracle where
  read_upload := Except.error "upload stream failed"
  write_temp := fun _ _ => Except.ok ()
  extract_text_from_docx := fun _ => Except.ok "Build a todo app with user auth"
  extract_text_from_pdf := fun _ => Except.ok "Build a todo app with user auth"
  chat_completion := fun _ => Except.ok "reply"

/-- A model reply embedding one balanced structured object amid prose. -/
def reply_with_prose : String :=
  "Here is the structure: \x7bserver: \x7bsrc: \x7broutes: files\x7d\x7d\x7d hope this helps"

/-- The balanced span embedded in `reply_with_prose`. -/
def span_of_reply : String := "\x7bserver: \x7bsrc: \x7broutes: files\x7d\x7d\x7d"

/-- A model reply containing no balanced structured object at all. -/
def reply_no_struct : String := "Sure, happy to help!"

/-- A model reply whose tree has no `tests` node anywhere. -/
def reply_missing_tests : String := "\x7bserver: \x7bsrc: \x7broutes: files\x7d\x7d\x7d"

/-- A valid raw-text request for the Node stack, with no file. -/
def req_raw_valid : Request :=
  ⟨none, some "Build a todo app with user auth", "nodejs-react"⟩

/-- A DOCX upload combined with an unrecognized tech-stack identifier. -/
def req_badstack_docx : Request := ⟨some ⟨"prd.docx"⟩, none, "flask-vue"⟩

/-- A DOCX upload with a valid tech-stack identifier. -/
def req_file_docx : Request := ⟨some ⟨"prd.docx"⟩, none, "nodejs-react"⟩

/-- The `except` wrapper in terms of the `try:` body: the response is the
body's value, or its exception converted to an error response; the effect
log is passed through untouched. -/
lemma generate_eq (ora : Oracle) (req : Request) :
    generate_file_structure ora req
      = ((match (try_body ora req).1 with
          | Except.ok r => Outcome.responded r
          | Except.error e => Outcome.responded (Response.error e)),
         (try_body ora req).2) := by
  unfold generate_file_structure
  rcases h : try_body ora req with ⟨res, log⟩
  cases res <;> simp [h]

/-- The wrapper does not change the effect log. -/
lemma generate_snd (ora : Oracle) (req : Request) :
    (generate_file_structure ora req).2 = (try_body ora req).2 := by
  rw [generate_eq]

/-- Unfolding equation for the tail pipeline with its let-binding
resolved. -/
lemma pipeline_eq (ora : Oracle) (stack : String) (txt : Option String)
    (log : List Effect) :
    pipeline_after_text ora stack txt log =
      if py_falsy txt = true then
        (Except.ok (Response.error "No PRD text provided."), log)
      else if (["django-react", "nodejs-react"].contains (py_lower stack)) = false then
        (Except.ok (Response.error "Invalid tech stack. Choose 'django-react' or 'nodejs-react'."), log)
      else
        match ora.chat_completion (build_prompt stack (base_structure stack) (txt.getD "")) with
        | Except.error e => (Except.error e, log ++ [Effect.modelCall])
        | Except.ok g => (Except.ok (Response.fileStructure g), log ++ [Effect.modelCall]) :=
  rfl

/-- The tail pipeline either stops before the model call (log unchanged) or
performs exactly one model call. -/
lemma pipeline_log_cases (ora : Oracle) (stack : String) (txt : Option String)
    (log : List Effect) :
    (pipeline_after_text ora stack txt log).2 = log ∨
    (pipeline_after_text ora stack txt log).2 = log ++ [Effect.modelCall] := by
  rw [pipeline_eq]
  by_cases h1 : py_falsy txt = true
  · rw [if_pos h1]; exact Or.inl rfl
  · rw [if_neg h1]
    by_cases h2 : (["django-react", "nodejs-react"].contains (py_lower stack)) = false
    · rw [if_pos h2]; exact Or.inl rfl
    · rw [if_neg h2]
      rcases h3 : ora.chat_completion (build_prompt stack (base_structure stack) (txt.getD "")) with e | g
      · exact Or.inr rfl
      · exact Or.inr rfl

/-- The tail pipeline never deletes temp storage. -/
lemma pipeline_no_delete (ora : Oracle) (stack : String) (txt : Option String)
    (log : List Effect) (p : String)
    (h : Effect.tempDelete p ∈ (pipeline_after_text ora stack txt log).2) :
    Effect.tempDelete p ∈ log := by
  rcases pipeline_log_cases ora stack txt log with hc | hc <;> rw [hc] at h
  · exact h
  · simpa using h

/-- If the model reply is `r` on every prompt and the pipeline reached the
model call, the pipeline's value is a success response carrying `r`
verbatim. -/
lemma pipeline_verbatim (ora : Oracle) (stack : String) (txt : Option String)
    (log : List Effect) (r : String)
    (hmodel : ∀ p, ora.chat_completion p = Except.ok r)
    (hlog : Effect.modelCall ∉ log)
    (hcall : Effect.modelCall ∈ (pipeline_after_text ora stack txt log).2) :
    (pipeline_after_text ora stack txt log).1 = Except.ok (Response.fileStructure r) := by
  rw [pipeline_eq] at hcall ⊢
  by_cases h1 : py_falsy txt = true
  · rw [if_pos h1] at hcall; exact absurd hcall hlog
  · rw [if_neg h1] at hcall ⊢
    by_cases h2 : (["django-react", "nodejs-react"].contains (py_lower stack)) = false
    · rw [if_pos h2] at hcall; exact absurd hcall hlog
    · rw [if_neg h2, hmodel]

/-- No branch of the `try:` body ever deletes temp storage. -/
lemma try_body_no_delete (ora : Oracle) (req : Request) (p : String) :
    Effect.tempDelete p ∉ (try_body ora req).2 := by
  obtain ⟨file?, txt, stack⟩ := req
  cases file? with
  | none =>
      intro h
      have h' := pipeline_no_delete ora stack txt [] p h
      simp at h'
  | some f =>
      unfold try_body
      dsimp only
      rcases hr : ora.read_upload with e | d
      · dsimp only; simp
      · dsimp only
        rcases hw : ora.write_temp ("temp_" ++ f.filename) d with e | u
        · dsimp only; simp
        · dsimp only
          by_cases hdx : py_endswith f.filename ".docx" = true
          · rw [if_pos hdx]
            rcases he : ora.extract_text_from_docx ("temp_" ++ f.filename) with e | text
            · dsimp only; simp
            · dsimp only
              intro h
              have h' := pipeline_no_delete ora stack (some text) _ p h
              simp at h'
          · rw [if_neg hdx]
            by_cases hpd : py_endswith f.filename ".pdf" = true
            · rw [if_pos hpd]
              rcases he : ora.extract_text_from_pdf ("temp_" ++ f.filename) with e | text
              · dsimp only; simp
              · dsimp only
                intro h
                have h' := pipeline_no_delete ora stack (some text) _ p h
                simp at h'
            · rw [if_neg hpd]; simp

/-- Every branch of the `try:` body taken with an uploaded file records the
creation of `temp_<filename>`. -/
lemma try_body_tempOpen (ora : Oracle) (f : UploadedFile) (txt : Option String)
    (stack : String) :
    Effect.tempOpen ("temp_" ++ f.filename) ∈ (try_body ora ⟨some f, txt, stack⟩).2 := by
  unfold try_body
  dsimp only
  rcases hr : ora.read_upload with e | d
  · dsimp only; simp
  · dsimp only
    rcases hw : ora.write_temp ("temp_" ++ f.filename) d with e | u
    · dsimp only; simp
    · dsimp only
      by_cases hdx : py_endswith f.filename ".docx" = true
      · rw [if_pos hdx]
        rcases he : ora.extract_text_from_docx ("temp_" ++ f.filename) with e | text
        · dsimp only; simp
        · dsimp only
          rcases pipeline_log_cases ora stack (some text)
              ([Effect.tempOpen ("temp_" ++ f.filename), Effect.fileRead,
                Effect.tempWrite ("temp_" ++ f.filename)] ++ [Effect.docxExtract ("temp_" ++ f.filename)])
            with hc | hc <;> rw [hc] <;> simp
      · rw [if_neg hdx]
        by_cases hpd : py_endswith f.filename ".pdf" = true
        · rw [if_pos hpd]
          rcases he : ora.extract_text_from_pdf ("temp_" ++ f.filename) with e | text
          · dsimp only; simp
          · dsimp only
            rcases pipeline_log_cases ora stack (some text)
                ([Effect.tempOpen ("temp_" ++ f.filename), Effect.fileRead,
                  Effect.tempWrite ("temp_" ++ f.filename)] ++ [Effect.pdfExtract ("temp_" ++ f.filename)])
              with hc | hc <;> rw [hc] <;> simp
        · rw [if_neg hpd]; simp

/-- If the model replies `r` on every prompt and the `try:` body reached the
model call, the body's value is a success response carrying `r` verbatim. -/
lemma try_body_verbatim (ora : Oracle) (req : Request) (r : String)
    (hmodel : ∀ p, ora.chat_completion p = Except.ok r)
    (hcall : Effect.modelCall ∈ (try_body ora req).2) :
    (try_body ora req).1 = Except.ok (Response.fileStructure r) := by
  obtain ⟨file?, txt, stack⟩ := req
  cases file? with
  | none =>
      exact pipeline_verbatim ora stack txt [] r hmodel (by simp) hcall
  | some f =>
      revert hcall
      unfold try_body
      dsimp only
      rcases hr : ora.read_upload with e | d
      · dsimp only; intro hcall; simp at hcall
      · dsimp only
        rcases hw : ora.write_temp ("temp_" ++ f.filename) d with e | u
        · dsimp only; intro hcall; simp at hcall
        · dsimp only
          by_cases hdx : py_endswith f.filename ".docx" = true
          · rw [if_pos hdx]
            rcases he : ora.extract_text_from_docx ("temp_" ++ f.filename) with e | text
            · dsimp only; intro hcall; simp at hcall
            · dsimp only
              intro hcall
              exact pipeline_verbatim ora stack (some text) _ r hmodel (by simp) hcall
          · rw [if_neg hdx]
            by_cases hpd : py_endswith f.filename ".pdf" = true
            · rw [if_pos hpd]
              rcases he : ora.extract_text_from_pdf ("temp_" ++ f.filename) with e | text
              · dsimp only; intro hcall; simp at hcall
              · dsimp only
                intro hcall
                exact pipeline_verbatim ora stack (some text) _ r hmodel (by simp) hcall
            · rw [if_neg hpd]
              intro hcall; simp at hcall

/-- Endpoint-level transport of `try_body_verbatim` through the `except`
wrapper. -/
lemma generate_verbatim (ora : Oracle) (req : Request) (r : String)
    (hmodel : ∀ p, ora.chat_completion p = Except.ok r)
    (hcall : Effect.modelCall ∈ (generate_file_structure ora req).2) :
    (generate_file_structure ora req).1
      = Outcome.responded (Response.fileStructure r) := by
  rw [generate_snd] at hcall
  have h := try_body_verbatim ora req r hmodel hcall
  rw [generate_eq, h]

/-- With an unrecognized stack identifier the tail pipeline stops at one of
the two guard errors and performs no model call. -/
lemma pipeline_invalid (ora : Oracle) (stack : String) (txt : Option String)
    (log : List Effect)
    (hbad : (["django-react", "nodejs-react"].contains (py_lower stack)) = false) :
    pipeline_after_text ora stack txt log
      = (Except.ok (Response.error (if py_falsy txt = true then "No PRD text provided."
          else "Invalid tech stack. Choose 'django-react' or 'nodejs-react'.")), log) := by
  rw [pipeline_eq]
  by_cases h1 : py_falsy txt = true
  · rw [if_pos h1, if_pos h1]
  · rw [if_neg h1, if_pos hbad, if_neg h1]

/-- With an unrecognized stack identifier the `try:` body never calls the
model and ends in an error: either a returned error response or a raised
exception. -/
lemma try_body_invalid (ora : Oracle) (req : Request)
    (hbad : (["django-react", "nodejs-react"].contains (py_lower req.tech_stack)) = false) :
    Effect.modelCall ∉ (try_body ora req).2 ∧
    ∃ m, (try_body ora req).1 = Except.ok (Response.error m) ∨
         (try_body ora req).1 = Except.error m := by
  obtain ⟨file?, txt, stack⟩ := req
  dsimp only at hbad
  cases file? with
  | none =>
      rw [show try_body ora ⟨none, txt, stack⟩ = pipeline_after_text ora stack txt [] from rfl,
        pipeline_invalid ora stack txt [] hbad]
      exact ⟨by simp, _, Or.inl rfl⟩
  | some f =>
      unfold try_body
      dsimp only
      rcases hr : ora.read_upload with e | d
      · dsimp only; exact ⟨by simp, e, Or.inr rfl⟩
      · dsimp only
        rcases hw : ora.write_temp ("temp_" ++ f.filename) d with e | u
        · dsimp only; exact ⟨by simp, e, Or.inr rfl⟩
        · dsimp only
          by_cases hdx : py_endswith f.filename ".docx" = true
          · rw [if_pos hdx]
            rcases he : ora.extract_text_from_docx ("temp_" ++ f.filename) with e | text
            · dsimp only; exact ⟨by simp, e, Or.inr rfl⟩
            · dsimp only
              rw [pipeline_invalid ora stack (some text) _ hbad]
              exact ⟨by simp, _, Or.inl rfl⟩
          · rw [if_neg hdx]
            by_cases hpd : py_endswith f.filename ".pdf" = true
            · rw [if_pos hpd]
              rcases he : ora.extract_text_from_pdf ("temp_" ++ f.filename) with e | text
              · dsimp only; exact ⟨by simp, e, Or.inr rfl⟩
              · dsimp only
                rw [pipeline_invalid ora stack (some text) _ hbad]
                exact ⟨by simp, _, Or.inl rfl⟩
            · rw [if_neg hpd]
              exact ⟨by simp, _, Or.inl rfl⟩

/-- C3: for every request and every behaviour of the external collaborators
the generate-structure operation returns a structured response and never
lets an exception escape: the outcome is always `Outcome.responded`, and an
exception raised anywhere in the `try:` body is returned as a response whose
error field carries the exception text. -/
theorem generate_never_crashes (ora : Oracle) (req : Request) :
    (∃ r log, generate_file_structure ora req = (Outcome.responded r, log)) ∧
    (∀ e log, try_body ora req = (Except.error e, log) →
      generate_file_structure ora req = (Outcome.responded (Response.error e), log)) := by
  constructor
  · rcases h : try_body ora req with ⟨res, log⟩
    cases res with
    | error e => exact ⟨Response.error e, log, by rw [generate_eq, h]⟩
    | ok r => exact ⟨r, log, by rw [generate_eq, h]⟩
  · intro e log h
    rw [generate_eq, h]

/-- C3 witness: an upload stream that raises is converted into a structured
error response. -/
theorem generate_never_crashes_witness :
    generate_file_structure ora_read_fails req_file_docx
      = (Outcome.responded (Response.error "upload stream failed"),
         [Effect.tempOpen "temp_prd.docx", Effect.fileRead]) :=
  (generate_never_crashes ora_read_fails req_file_docx).2 "upload stream failed"
    [Effect.tempOpen "temp_prd.docx", Effect.fileRead] rfl

/-- C4 counterexample: a request with an uploaded DOCX file and the invalid
stack identifier "flask-vue" does fail with the invalid-stack error, but
only after the file has been opened, read, written to temp storage and
parsed — refuting "without any file being read, written, or parsed". -/
theorem invalid_stack_after_extraction_cex :
    generate_file_structure (ora_ok reply_with_prose) req_badstack_docx
      = (Outcome.responded (Response.error "Invalid tech stack. Choose 'django-react' or 'nodejs-react'."),
         [Effect.tempOpen "temp_prd.docx", Effect.fileRead, Effect.tempWrite "temp_prd.docx",
          Effect.docxExtract "temp_prd.docx"]) ∧
    Effect.fileRead ∈ (generate_file_structure (ora_ok reply_with_prose) req_badstack_docx).2 ∧
    Effect.docxExtract "temp_prd.docx"
      ∈ (generate_file_structure (ora_ok reply_with_prose) req_badstack_docx).2 :=
  ⟨rfl, by decide, by decide⟩

/-- C4 (amended): the stack identifier is validated against the closed enum
only after document extraction: a request with a supported uploaded file and
an invalid stack identifier fails with the invalid-stack error, with the
temp-file write, the upload read and the document parse already performed,
and no model call is made. -/
theorem invalid_stack_checked_after_extraction (ora : Oracle) (f : UploadedFile)
    (stack d text : String)
    (hdocx : py_endswith f.filename ".docx" = true)
    (hread : ora.read_upload = Except.ok d)
    (hwrite : ora.write_temp ("temp_" ++ f.filename) d = Except.ok ())
    (hex : ora.extract_text_from_docx ("temp_" ++ f.filename) = Except.ok text)
    (htext : ¬ text = "")
    (hbad : (["django-react", "nodejs-react"].contains (py_lower stack)) = false) :
    generate_file_structure ora ⟨some f, none, stack⟩
      = (Outcome.responded (Response.error "Invalid tech stack. Choose 'django-react' or 'nodejs-react'."),
         [Effect.tempOpen ("temp_" ++ f.filename), Effect.fileRead,
          Effect.tempWrite ("temp_" ++ f.filename), Effect.docxExtract ("temp_" ++ f.filename)]) := by
  have hb : try_body ora ⟨some f, none, stack⟩
      = (Except.ok (Response.error "Invalid tech stack. Choose 'django-react' or 'nodejs-react'."),
         [Effect.tempOpen ("temp_" ++ f.filename), Effect.fileRead,
          Effect.tempWrite ("temp_" ++ f.filename), Effect.docxExtract ("temp_" ++ f.filename)]) := by
    unfold try_body
    dsimp only
    rw [hread]
    dsimp only
    rw [hwrite]
    dsimp only
    rw [if_pos hdocx, hex]
    dsimp only
    rw [pipeline_invalid ora stack (some text) _ hbad]
    simp [py_falsy, htext]
  rw [generate_eq, hb]

/-- C4 witness for the amended theorem. -/
theorem invalid_stack_checked_after_extraction_witness :
    generate_file_structure (ora_ok reply_with_prose) ⟨some ⟨"prd.docx"⟩, none, "flask-vue"⟩
      = (Outcome.responded (Response.error "Invalid tech stack. Choose 'django-react' or 'nodejs-react'."),
         [Effect.tempOpen "temp_prd.docx", Effect.fileRead, Effect.tempWrite "temp_prd.docx",
          Effect.docxExtract "temp_prd.docx"]) :=
  invalid_stack_checked_after_extraction (ora_ok reply_with_prose) ⟨"prd.docx"⟩ "flask-vue"
    "PRD bytes" "Build a todo app with user auth" (by decide) rfl rfl rfl (by decide) (by decide)

/-- C5 counterexample: a fully successful DOCX request completes with a
generated structure, yet its temp file `temp_prd.docx` is still on disk
afterwards — refuting "no temp file remains after the request". -/
theorem temp_file_left_behind_cex :
    (generate_file_structure (ora_ok reply_with_prose) req_file_docx).1
      = Outcome.responded (Response.fileStructure reply_with_prose) ∧
    temp_files_remaining (generate_file_structure (ora_ok reply_with_prose) req_file_docx).2
      = ["temp_prd.docx"] :=
  ⟨rfl, rfl⟩

/-- C5 (amended): the uploaded payload is written to `temp_<filename>` and
never deleted: on every path of a request carrying a file — success and
every failure, exceptions included — the temp file is created, no deletion
effect ever occurs, and the temp file remains after the request. -/
theorem temp_storage_never_deleted (ora : Oracle) (req : Request) (f : UploadedFile)
    (hf : req.file = some f) :
    Effect.tempOpen ("temp_" ++ f.filename) ∈ (generate_file_structure ora req).2 ∧
    (∀ p, Effect.tempDelete p ∉ (generate_file_structure ora req).2) ∧
    "temp_" ++ f.filename ∈ temp_files_remaining (generate_file_structure ora req).2 := by
  obtain ⟨file?, txt, stack⟩ := req
  dsimp only at hf
  subst hf
  have h1 : Effect.tempOpen ("temp_" ++ f.filename)
      ∈ (generate_file_structure ora ⟨some f, txt, stack⟩).2 := by
    rw [generate_snd]; exact try_body_tempOpen ora f txt stack
  have h2 : ∀ p, Effect.tempDelete p ∉ (generate_file_structure ora ⟨some f, txt, stack⟩).2 := by
    intro p
    rw [generate_snd]
    exact try_body_no_delete ora ⟨some f, txt, stack⟩ p
  refine ⟨h1, h2, ?_⟩
  unfold temp_files_remaining
  dsimp only
  have hdel : (generate_file_structure ora ⟨some f, txt, stack⟩).2.filterMap
      (fun e => match e with | Effect.tempDelete p => some p | _ => none) = [] := by
    rw [List.filterMap_eq_nil_iff]
    intro a ha
    cases a with
    | tempDelete p => exact absurd ha (h2 p)
    | tempOpen p => rfl
    | fileRead => rfl
    | tempWrite p => rfl
    | docxExtract p => rfl
    | pdfExtract p => rfl
    | modelCall => rfl
  rw [hdel]
  simp only [List.contains_nil, Bool.not_false, List.filter_true]
  exact List.mem_filterMap.mpr ⟨Effect.tempOpen ("temp_" ++ f.filename), h1, rfl⟩

/-- C5 witness for the amended theorem. -/
theorem temp_storage_never_deleted_witness :
    Effect.tempOpen "temp_prd.docx"
      ∈ (generate_file_structure (ora_ok reply_with_prose) req_file_docx).2 ∧
    (∀ p, Effect.tempDelete p ∉ (generate_file_structure (ora_ok reply_with_prose) req_file_docx).2) ∧
    "temp_prd.docx"
      ∈ temp_files_remaining (generate_file_structure (ora_ok reply_with_prose) req_file_docx).2 :=
  temp_storage_never_deleted (ora_ok reply_with_prose) req_file_docx ⟨"prd.docx"⟩ rfl

/-- C6: stack-identifier matching is case-insensitive — identifiers with the
same lowercasing select the same baseline template — and every unrecognized
identifier is rejected (the outcome is an error response) before any model
call is made (the effect log never records one). -/
theorem stack_case_insensitive_and_rejected (ora : Oracle) :
    (∀ s t : String, py_lower s = py_lower t → base_structure s = base_structure t) ∧
    (∀ req : Request,
      (["django-react", "nodejs-react"].contains (py_lower req.tech_stack)) = false →
      Effect.modelCall ∉ (generate_file_structure ora req).2 ∧
      ∃ m, (generate_file_structure ora req).1 = Outcome.responded (Response.error m)) := by
  constructor
  · intro s t h
    unfold base_structure
    rw [h]
  · intro req hbad
    obtain ⟨hno, m, hm⟩ := try_body_invalid ora req hbad
    constructor
    · rw [generate_snd]; exact hno
    · rcases hm with hm | hm
      · exact ⟨m, by rw [generate_eq, hm]⟩
      · exact ⟨m, by rw [generate_eq, hm]⟩

/-- C6 witness: "Django-React" and "django-react" select the same baseline,
and the unrecognized identifier "flask-vue" triggers no model call and an
error response. -/
theorem stack_case_insensitive_and_rejected_witness :
    base_structure "Django-React" = base_structure "django-react" ∧
    Effect.modelCall
      ∉ (generate_file_structure (ora_ok reply_with_prose) req_badstack_docx).2 :=
  ⟨(stack_case_insensitive_and_rejected (ora_ok reply_with_prose)).1
      "Django-React" "django-react" (by decide),
   ((stack_case_insensitive_and_rejected (ora_ok reply_with_prose)).2
      req_badstack_docx (by decide)).1⟩

/-- C7: the validation/repair stage the endpoint applies to the model reply
(trial.py lines 172-174) is the identity, so it is idempotent: a request
whose model reply is the output `out` of a previous run returns `out`
unchanged — processing an already-processed tree is a no-op, in particular
once all mandatory categories are present. -/
theorem repair_stage_idempotent (ora ora2 : Oracle) (req req2 : Request) (r : String)
    (hmodel : ∀ p, ora.chat_completion p = Except.ok r)
    (hcall : Effect.modelCall ∈ (generate_file_structure ora req).2) :
    ∃ out, (generate_file_structure ora req).1
        = Outcome.responded (Response.fileStructure out) ∧
      ((∀ p, ora2.chat_completion p = Except.ok out) →
        Effect.modelCall ∈ (generate_file_structure ora2 req2).2 →
        (generate_file_structure ora2 req2).1
          = Outcome.responded (Response.fileStructure out)) :=
  ⟨r, generate_verbatim ora req r hmodel hcall,
    fun h2 hc2 => generate_verbatim ora2 req2 r h2 hc2⟩

/-- C7 witness: running the endpoint a second time with the first run's
output as the model reply returns the same structure. -/
theorem repair_stage_idempotent_witness :
    ∃ out, (generate_file_structure (ora_ok reply_missing_tests) req_raw_valid).1
        = Outcome.responded (Response.fileStructure out) ∧
      ((∀ p, (ora_ok reply_missing_tests).chat_completion p = Except.ok out) →
        Effect.modelCall ∈ (generate_file_structure (ora_ok reply_missing_tests) req_raw_valid).2 →
        (generate_file_structure (ora_ok reply_missing_tests) req_raw_valid).1
          = Outcome.responded (Response.fileStructure out)) :=
  repair_stage_idempotent (ora_ok reply_missing_tests) (ora_ok reply_missing_tests)
    req_raw_valid req_raw_valid reply_missing_tests (fun _ => rfl) (by decide)

/-- C8: when an uploaded file with a supported extension is supplied, the
raw-text form field is overwritten by the extracted text and never reaches
the prompt: the endpoint's entire behaviour (response and effects) is
independent of the supplied `prd_text`. -/
theorem file_overrides_prd_text (ora : Oracle) (f : UploadedFile) (stack : String)
    (t1 t2 : Option String)
    (_hsupp : py_endswith f.filename ".docx" = true ∨ py_endswith f.filename ".pdf" = true) :
    generate_file_structure ora ⟨some f, t1, stack⟩
      = generate_file_structure ora ⟨some f, t2, stack⟩ := rfl

/-- C8 witness: supplying raw text alongside a DOCX upload changes
nothing. -/
theorem file_overrides_prd_text_witness :
    generate_file_structure (ora_ok reply_with_prose)
        ⟨some ⟨"prd.docx"⟩, some "user-typed requirements", "nodejs-react"⟩
      = generate_file_structure (ora_ok reply_with_prose)
        ⟨some ⟨"prd.docx"⟩, none, "nodejs-react"⟩ :=
  file_overrides_prd_text (ora_ok reply_with_prose) ⟨"prd.docx"⟩ "nodejs-react"
    (some "user-typed requirements") none (Or.inl (by decide))

/-- C9: whenever the model call is reached and the model replies `r`, the
success response's file_structure field is exactly `r`, unchanged — no
substring extraction, parsing, validation, or merging is applied. -/
theorem file_structure_is_reply_verbatim (ora : Oracle) (req : Request) (r : String)
    (hmodel : ∀ p, ora.chat_completion p = Except.ok r)
    (hcall : Effect.modelCall ∈ (generate_file_structure ora req).2) :
    (generate_file_structure ora req).1
      = Outcome.responded (Response.fileStructure r) :=
  generate_verbatim ora req r hmodel hcall

/-- C9 witness: a raw-text request returns the model reply verbatim. -/
theorem file_structure_is_reply_verbatim_witness :
    (generate_file_structure (ora_ok reply_with_prose) req_raw_valid).1
      = Outcome.responded (Response.fileStructure reply_with_prose) :=
  file_structure_is_reply_verbatim (ora_ok reply_with_prose) req_raw_valid
    reply_with_prose (fun _ => rfl) (by decide)

/-- C1 counterexample: for a reply whose balanced span is surrounded by
prose the endpoint returns the whole reply, not the span the spec's
depth-balanced scan selects; and a reply with no balanced span at all still
succeeds instead of failing with NoStructureFound. -/
theorem normalizer_not_applied_cex :
    (generate_file_structure (ora_ok reply_with_prose) req_raw_valid).1
      = Outcome.responded (Response.fileStructure reply_with_prose) ∧
    spec_extract_first_balanced reply_with_prose = some span_of_reply ∧
    reply_with_prose ≠ span_of_reply ∧
    (generate_file_structure (ora_ok reply_no_struct) req_raw_valid).1
      = Outcome.responded (Response.fileStructure reply_no_struct) ∧
    spec_extract_first_balanced reply_no_struct = none :=
  ⟨rfl, by decide, by decide, rfl, by decide⟩

/-- C1 (amended): no response normalization is performed: whenever the model
call is reached with reply `r`, the endpoint succeeds with `r` itself, even
when the first depth-balanced span of `r` differs from `r` (surrounding
prose or fences, or no balanced span at all), and no NoStructureFound
failure exists. -/
theorem raw_reply_not_normalized (ora : Oracle) (req : Request) (r : String)
    (hmodel : ∀ p, ora.chat_completion p = Except.ok r)
    (hcall : Effect.modelCall ∈ (generate_file_structure ora req).2)
    (_hspan : spec_extract_first_balanced r ≠ some r) :
    (generate_file_structure ora req).1
      = Outcome.responded (Response.fileStructure r) :=
  generate_verbatim ora req r hmodel hcall

/-- C1 witness for the amended theorem. -/
theorem raw_reply_not_normalized_witness :
    (generate_file_structure (ora_ok reply_with_prose) req_raw_valid).1
      = Outcome.responded (Response.fileStructure reply_with_prose) ∧
    spec_extract_first_balanced reply_with_prose ≠ some reply_with_prose :=
  ⟨raw_reply_not_normalized (ora_ok reply_with_prose) req_raw_valid reply_with_prose
      (fun _ => rfl) (by decide) (by decide),
   by decide⟩

set_option maxRecDepth 40000 in
/-- C2 counterexample: the Node baseline contains a mandatory `tests`
category, the generated reply does not, and the returned structure still
does not — nothing was deep-copied in from the baseline. -/
theorem baseline_not_merged_cex :
    (generate_file_structure (ora_ok reply_missing_tests) req_raw_valid).1
      = Outcome.responded (Response.fileStructure reply_missing_tests) ∧
    contains_sub node_react_structure "tests" = true ∧
    contains_sub reply_missing_tests "tests" = false :=
  ⟨rfl, by decide, by decide⟩

/-- C2 (amended): no reconciliation against the baseline template is
performed: a successfully generated reply in which the mandatory `tests`
category is absent is returned with that category still absent. -/
theorem missing_category_not_repaired (ora : Oracle) (req : Request) (r : String)
    (hmodel : ∀ p, ora.chat_completion p = Except.ok r)
    (hcall : Effect.modelCall ∈ (generate_file_structure ora req).2)
    (hmiss : contains_sub r "tests" = false) :
    ∃ s, (generate_file_structure ora req).1
        = Outcome.responded (Response.fileStructure s) ∧
      contains_sub s "tests" = false :=
  ⟨r, generate_verbatim ora req r hmodel hcall, hmiss⟩

/-- C2 witness for the amended theorem. -/
theorem missing_category_not_repaired_witness :
    ∃ s, (generate_file_structure (ora_ok reply_missing_tests) req_raw_valid).1
        = Outcome.responded (Response.fileStructure s) ∧
      contains_sub s "tests" = false :=
  missing_category_not_repaired (ora_ok reply_missing_tests) req_raw_valid
    reply_missing_tests (fun _ => rfl) (by decide) (by decide)

/-- C10: the uploaded file's format is decided solely by a case-sensitive
suffix test on the client-supplied filename: with the same byte stream `d`,
filenames ending in ".PDF" or ".Docx" are rejected as unsupported, while the
lowercase ".pdf" and ".docx" names proceed to extraction. -/
theorem suffix_test_case_sensitive (ora : Oracle) (d : String)
    (hread : ora.read_upload = Except.ok d)
    (hwrite : ∀ p x, ora.write_temp p x = Except.ok ()) :
    (generate_file_structure ora ⟨some ⟨"requirements.PDF"⟩, none, "nodejs-react"⟩).1
      = Outcome.responded (Response.error "Unsupported file format. Use DOCX or PDF.") ∧
    (generate_file_structure ora ⟨some ⟨"requirements.Docx"⟩, none, "nodejs-react"⟩).1
      = Outcome.responded (Response.error "Unsupported file format. Use DOCX or PDF.") ∧
    Effect.pdfExtract "temp_requirements.pdf"
      ∈ (generate_file_structure ora ⟨some ⟨"requirements.pdf"⟩, none, "nodejs-react"⟩).2 ∧
    Effect.docxExtract "temp_requirements.docx"
      ∈ (generate_file_structure ora ⟨some ⟨"requirements.docx"⟩, none, "nodejs-react"⟩).2 := by
  refine ⟨?_, ?_, ?_, ?_⟩
  · have hb : try_body ora ⟨some ⟨"requirements.PDF"⟩, none, "nodejs-react"⟩
        = (Except.ok (Response.error "Unsupported file format. Use DOCX or PDF."),
           [Effect.tempOpen "temp_requirements.PDF", Effect.fileRead,
            Effect.tempWrite "temp_requirements.PDF"]) := by
      unfold try_body
      dsimp only
      rw [hread]
      dsimp only
      rw [hwrite]
      dsimp only
      rw [if_neg (by decide), if_neg (by decide)]
      rfl
    rw [generate_eq, hb]
  · have hb : try_body ora ⟨some ⟨"requirements.Docx"⟩, none, "nodejs-react"⟩
        = (Except.ok (Response.error "Unsupported file format. Use DOCX or PDF."),
           [Effect.tempOpen "temp_requirements.Docx", Effect.fileRead,
            Effect.tempWrite "temp_requirements.Docx"]) := by
      unfold try_body
      dsimp only
      rw [hread]
      dsimp only
      rw [hwrite]
      dsimp only
      rw [if_neg (by decide), if_neg (by decide)]
      rfl
    rw [generate_eq, hb]
  · rw [generate_snd]
    unfold try_body
    dsimp only
    rw [hread]
    dsimp only
    rw [hwrite]
    dsimp only
    rw [if_neg (by decide), if_pos (by decide)]
    rcases he : ora.extract_text_from_pdf ("temp_" ++ "requirements.pdf") with e | text
    · dsimp only; decide
    · dsimp only
      rcases pipeline_log_cases ora "nodejs-react" (some text)
          ([Effect.tempOpen ("temp_" ++ "requirements.pdf"), Effect.fileRead,
            Effect.tempWrite ("temp_" ++ "requirements.pdf")]
            ++ [Effect.pdfExtract ("temp_" ++ "requirements.pdf")])
        with hc | hc <;> rw [hc] <;> decide
  · rw [generate_snd]
    unfold try_body
    dsimp only
    rw [hread]
    dsimp only
    rw [hwrite]
    dsimp only
    rw [if_pos (by decide)]
    rcases he : ora.extract_text_from_docx ("temp_" ++ "requirements.docx") with e | text
    · dsimp only; decide
    · dsimp only
      rcases pipeline_log_cases ora "nodejs-react" (some text)
          ([Effect.tempOpen ("temp_" ++ "requirements.docx"), Effect.fileRead,
            Effect.tempWrite ("temp_" ++ "requirements.docx")]
            ++ [Effect.docxExtract ("temp_" ++ "requirements.docx")])
        with hc | hc <;> rw [hc] <;> decide

/-- C10 witness: the same benign collaborators accept `requirements.pdf`
and reject `requirements.PDF`. -/
theorem suffix_test_case_sensitive_witness :
    (generate_file_structure (ora_ok reply_with_prose)
        ⟨some ⟨"requirements.PDF"⟩, none, "nodejs-react"⟩).1
      = Outcome.responded (Response.error "Unsupported file format. Use DOCX or PDF.") ∧
    Effect.pdfExtract "temp_requirements.pdf"
      ∈ (generate_file_structure (ora_ok reply_with_prose)
          ⟨some ⟨"requirements.pdf"⟩, none, "nodejs-react"⟩).2 :=
  ⟨(suffix_test_case_sensitive (ora_ok reply_with_prose) "PRD bytes" rfl
      (fun _ _ => rfl)).1,
   (suffix_test_case_sensitive (ora_ok reply_with_prose) "PRD bytes" rfl
      (fun _ _ => rfl)).2.2.1⟩

end Trial
